import Mathlib

/-!
Shallow embedding of the device-readiness and network-bridge logic of
`internal/adb.py` (class `Adb`): the battery/interface/property text
extractors, `get_rndis_interface`, `check_rndis`, `check_simplert`,
`is_device_ready` and `get_bytes_rx`.

Device interaction is modelled by an explicit oracle (`DeviceEnv`) giving the
text each external command would return, and every issued device command is
recorded in an event trace, so that theorems can speak both about returned
values and about which commands a code path issues.
-/

namespace AdbSpec

set_option maxRecDepth 20000

/-- Python regex class `\d` (ASCII digits). -/
def pyDigit (c : Char) : Bool := c.isDigit

/-- Python regex class `\s` (ASCII whitespace). -/
def pySpace (c : Char) : Bool :=
  c = ' ' || c = '\t' || c = '\n' || c = '\r' || c = '\x0b' || c = '\x0c'

/-- Python regex class `\w` (ASCII word characters). -/
def pyWord (c : Char) : Bool := c.isAlphanum || c = '_'

/-- Python regex class `[\d\.]`. -/
def digitDot (c : Char) : Bool := pyDigit c || c = '.'

/-- Greedy `X+` for a character class: consume one or more matching characters. -/
def takeWhile1 (p : Char → Bool) (s : List Char) : Option (List Char × List Char) :=
  if (s.takeWhile p).isEmpty then none else some (s.takeWhile p, s.dropWhile p)

/-- Consume one exact character. -/
def expectChar (c : Char) : List Char → Option (List Char)
  | [] => none
  | x :: xs => if x = c then some xs else none

/-- Consume an exact literal. -/
def expectLit : List Char → List Char → Option (List Char)
  | [], s => some s
  | c :: cs, s => (expectChar c s).bind (expectLit cs)

/-- Value of a string of decimal digits, as Python `int` reads it. -/
def digitsToNat (ds : List Char) : Nat :=
  ds.foldl (fun acc c => acc * 10 + (c.toNat - '0'.toNat)) 0

/-- Python `str.splitlines`: breaks at `\r\n`, `\r`, `\n`; no trailing empty line. -/
def pySplitlinesAux : List Char → List Char → List String
  | [], acc => if acc.isEmpty then [] else [String.mk acc.reverse]
  | '\r' :: '\n' :: rest, acc => String.mk acc.reverse :: pySplitlinesAux rest []
  | '\r' :: rest, acc => String.mk acc.reverse :: pySplitlinesAux rest []
  | '\n' :: rest, acc => String.mk acc.reverse :: pySplitlinesAux rest []
  | c :: rest, acc => pySplitlinesAux rest (c :: acc)

def pySplitlines (s : String) : List String := pySplitlinesAux s.data []

/-- Python `str.lower` (ASCII). -/
def pyLower (s : String) : String := String.mk (s.data.map Char.toLower)

/-- Python `str.strip`. -/
def pyStrip (s : String) : String :=
  String.mk (((s.data.dropWhile pySpace).reverse.dropWhile pySpace).reverse)

/-- Regex `^\s*level:\s*(\d+)` of `get_battery_stats`, returning the group as an integer. -/
def matchLevel (s : List Char) : Option Nat :=
  (expectLit "level:".data (s.dropWhile pySpace)).bind fun s1 =>
    (takeWhile1 pyDigit (s1.dropWhile pySpace)).map fun p => digitsToNat p.1

/-- Regex `^\s*temperature:\s*(\d+)` of `get_battery_stats`. -/
def matchTemperature (s : List Char) : Option Nat :=
  (expectLit "temperature:".data (s.dropWhile pySpace)).bind fun s1 =>
    (takeWhile1 pyDigit (s1.dropWhile pySpace)).map fun p => digitsToNat p.1

/-- Battery facts parsed from `dumpsys battery` output (`get_battery_stats`):
temperature in celsius is the raw integer divided by 10. -/
structure BatteryStats where
  level : Option Nat
  temp : Option Rat
deriving DecidableEq

def get_battery_stats (out : Option String) : BatteryStats :=
  match out with
  | none => ⟨none, none⟩
  | some o =>
    (pySplitlines o).foldl
      (fun st line =>
        let st1 := match matchLevel line.data with
          | some n => { st with level := some n }
          | none => st
        match matchTemperature line.data with
          | some n => { st1 with temp := some ((n : Rat) / 10) }
          | none => st1)
      ⟨none, none⟩

/-- The `[^\n]*state (\w+)` tail of the interface regex: candidate group-2
strings, last (greedy) occurrence of `state ` followed by a word character,
not scanning past a newline. -/
def stateCandidates : List Char → List (List Char)
  | [] => []
  | c :: rest =>
    if c = '\n' then []
    else
      let here :=
        if "state ".data.isPrefixOf (c :: rest) then
          match (c :: rest).drop 6 with
          | d :: ds => if pyWord d then [d :: ds] else []
          | [] => []
        else []
      here ++ stateCandidates rest

def lastStateMatch (s : List Char) : Option String :=
  match (stateCandidates s).getLast? with
  | some tail => some (String.mk (tail.takeWhile pyWord))
  | none => none

/-- One attempt of `[\d]+\:\s+([^:]+):[^\n]*state (\w+)` at the head of `s`,
returning (interface name, state). -/
def matchIfaceAt (s : List Char) : Option (String × String) :=
  (takeWhile1 pyDigit s).bind fun d =>
  (expectChar ':' d.2).bind fun s1 =>
  (takeWhile1 pySpace s1).bind fun w =>
  (takeWhile1 (fun c => c != ':') w.2).bind fun nm =>
  (expectChar ':' nm.2).bind fun s2 =>
  (lastStateMatch s2).map fun st => (String.mk nm.1, st)

/-- `re.search` of the interface-line pattern: first start position that matches. -/
def matchIface : List Char → Option (String × String)
  | [] => none
  | c :: rest =>
    match matchIfaceAt (c :: rest) with
    | some r => some r
    | none => matchIface rest

/-- Regex `^\s*inet ([\d\.]+)` of `get_rndis_interface`. -/
def matchInet (s : List Char) : Option String :=
  (expectLit "inet ".data (s.dropWhile pySpace)).bind fun s2 =>
    (takeWhile1 digitDot s2).map fun p => String.mk p.1

/-- Regex `^\s*rtt\s[^=]*=\s*([\d\.]*)` of `ping`, returning the matched group. -/
def matchRtt (s : List Char) : Option String :=
  (expectLit "rtt".data (s.dropWhile pySpace)).bind fun s2 =>
    match s2 with
    | c :: rest =>
      if pySpace c then
        (expectChar '=' (rest.dropWhile (fun x => x != '='))).map fun s3 =>
          String.mk ((s3.dropWhile pySpace).takeWhile digitDot)
      else none
    | [] => none

/-- `ping`: the rtt taken from the last matching line of the command output
(`None` = address did not respond). -/
def parse_rtt (out : Option String) : Option String :=
  match out with
  | none => none
  | some o =>
    (pySplitlines o).foldl
      (fun acc line =>
        match matchRtt line.data with
        | some v => some v
        | none => acc)
      none

/-- Regex `^[\d]+\:\s+tun0:` of `is_tun_interface_available`. -/
def matchTun0 (s : List Char) : Bool :=
  ((takeWhile1 pyDigit s).bind fun p =>
    (expectChar ':' p.2).bind fun s1 =>
    (takeWhile1 pySpace s1).bind fun w =>
    expectLit "tun0:".data w.2).isSome

/-- Tail `\]:\s+\[([^\]]*)\]` common to the property-scan regexes: after the
key's closing `]:`, whitespace, then the bracketed value. -/
def matchBracketValue (s : List Char) : Option String :=
  (expectLit "]:".data s).bind fun s1 =>
  (takeWhile1 pySpace s1).bind fun w =>
  (expectChar '[' w.2).bind fun s3 =>
  (expectChar ']' (s3.dropWhile (fun x => x != ']'))).map fun _ =>
    String.mk (s3.takeWhile (fun x => x != ']'))

/-- Regex `^\[net\.dns\d\]:\s+\[([^\]]*)\]` of the `is_device_ready` property scan. -/
def matchNetDns (s : List Char) : Option String :=
  (expectLit "[net.dns".data s).bind fun s1 =>
    match s1 with
    | c :: rest => if pyDigit c then matchBracketValue rest else none
    | [] => none

/-- Regex `^\[dhcp\.[^\.]+\.dns\d\]:\s+\[([^\]]*)\]`. -/
def matchDhcpDns (s : List Char) : Option String :=
  (expectLit "[dhcp.".data s).bind fun s1 =>
  (takeWhile1 (fun c => c != '.') s1).bind fun p =>
  (expectLit ".dns".data p.2).bind fun s2 =>
    match s2 with
    | c :: rest => if pyDigit c then matchBracketValue rest else none
    | [] => none

/-- Regex `^\[dhcp\.[^\.]+\.gateway\]:\s+\[([^\]]*)\]`. -/
def matchDhcpGateway (s : List Char) : Option String :=
  (expectLit "[dhcp.".data s).bind fun s1 =>
  (takeWhile1 (fun c => c != '.') s1).bind fun p =>
  (expectLit ".gateway".data p.2).bind fun s2 =>
  matchBracketValue s2

/-- Regex `^\s*(\w+):\s+(\d+)` of `get_bytes_rx` over `/proc/net/dev` lines:
(interface name, received-bytes counter). -/
def matchDevLine (s : List Char) : Option (String × Nat) :=
  (takeWhile1 pyWord (s.dropWhile pySpace)).bind fun p =>
  (expectChar ':' p.2).bind fun s2 =>
  (takeWhile1 pySpace s2).bind fun w =>
  (takeWhile1 pyDigit w.2).map fun d => (String.mk p.1, digitsToNat d.1)

/-- Regex `^(\d+\.\d+)` of the version parse in `is_device_ready`, converted to
a rational as Python `float` reads the short version. -/
def matchShortVersion (s : List Char) : Option Rat :=
  (takeWhile1 pyDigit s).bind fun p1 =>
  (expectChar '.' p1.2).bind fun s1 =>
  (takeWhile1 pyDigit s1).map fun p2 =>
    (digitsToNat p1.1 : Rat) + (digitsToNat p2.1 : Rat) / ((10 : Rat) ^ p2.1.length)

/-- Regex `^([\d\.]+\/\d+),([\d\.]+),([\d\.]+),([\d\.]+)` over the rndis
configuration string in `check_rndis`. -/
structure RndisAddress where
  addr : String
  gateway : String
  dns1 : String
  dns2 : String
deriving DecidableEq

def matchRndisConfig (s : List Char) : Option RndisAddress :=
  (takeWhile1 digitDot s).bind fun p1 =>
  (expectChar '/' p1.2).bind fun s1 =>
  (takeWhile1 pyDigit s1).bind fun p2 =>
  (expectChar ',' p2.2).bind fun s2 =>
  (takeWhile1 digitDot s2).bind fun p3 =>
  (expectChar ',' p3.2).bind fun s3 =>
  (takeWhile1 digitDot s3).bind fun p4 =>
  (expectChar ',' p4.2).bind fun s4 =>
  (takeWhile1 digitDot s4).map fun p5 =>
    ⟨String.mk (p1.1 ++ '/' :: p2.1), String.mk p3.1, String.mk p4.1, String.mk p5.1⟩

/-- A device command issued while the logic runs: an `adb shell` command, a
`su -c` command, a plain `adb` command, or an error-level log line. -/
inductive Event where
  | shell (args : List String)
  | su (cmd : String)
  | adbCmd (args : List String)
  | logError (msg : String)
deriving DecidableEq

/-- One iteration of the `check_simplert` polling loop observes the current
window list (for `dismiss_vpn_dialog`) and the interface listing. -/
structure PollObs where
  windows : String
  ipShow : Option String
deriving DecidableEq

/-- What the device answers to each command the readiness logic can issue.
`ip address show` is asked up to three times by `check_rndis` at different
moments, so the oracle carries one answer per query site; the `check_simplert`
polling loop is given the list of iterations that fit before its wall-clock
deadline. Fields are `Option String` where the code guards against a missing
answer, and `String` where the code dereferences the output unconditionally. -/
structure DeviceEnv where
  batteryOut : Option String
  versionOut : Option String
  clientIdOut : Option String
  getpropOut : Option String
  usbConfigOut : String
  ipShowRndis1 : Option String
  ipShowRndis2 : Option String
  ipShowRndis3 : Option String
  ipLinkOut : Option String
  ipShowTun : Option String
  tunPolls : List PollObs
  pingOut : String → Option String
  windowsOut : String
  packageOut : String → Option String

/-- The mutable per-process fields of the `Adb` object that the readiness
logic reads or writes. -/
structure AdbState where
  pingAddress : Option String
  version : Option String
  shortVersion : Option Rat
  kernel : Option String
  lastBytesRx : Int
  initFlag : Bool
  knownApps : List (String × Option Bool)
deriving DecidableEq

/-- The configuration strings fixed at startup (`options.rndis`,
`options.simplert`). -/
structure AdbConfig where
  rndis : Option String
  simplert : Option String
deriving DecidableEq

/-- `Adb.__init__`: `initialized = False`, `ping_address = None`,
`last_bytes_rx = 0`, empty known-app cache entries. -/
def initialState : AdbState :=
  { pingAddress := none, version := none, shortVersion := none, kernel := none,
    lastBytesRx := 0, initFlag := false,
    knownApps := [("com.motorola.ccc.ota", none),
                  ("com.google.android.apps.docs", none),
                  ("com.samsung.android.MtpApplication", none)] }

def statusQuery : Event := .shell ["ip", "address", "show"]

def pingEvent (address : String) : Event :=
  .shell ["ping", "-n", "-c3", "-i0.2", "-w5", address]

def resetSimplertEvent : Event := .shell ["am", "force-stop", "com.viper.simplert"]

def suppressCmd : String := "pm disable com.android.cellbroadcastreceiver"

def suppressEvent : Event := .su suppressCmd

/-- State of the `get_rndis_interface` line scan: candidate interface, its
state, its address, and whether the next `inet` line belongs to it. -/
structure IfScan where
  interface : Option String
  ifState : Option String
  address : Option String
  needAddress : Bool
deriving DecidableEq

/-- One line of the `get_rndis_interface` loop: an `rndis0` line always
(re)selects the interface; a `usb0` line selects it only if nothing was
selected yet; any other interface line cancels address attribution; an `inet`
line supplies the address of the most recent candidate if nothing intervened. -/
def girStep (st : IfScan) (line : String) : IfScan :=
  match matchIface line.data with
  | some (iface, st2) =>
    if iface == "rndis0" then
      ⟨some iface, some (pyLower st2), none, true⟩
    else if st.interface.isNone && iface == "usb0" then
      ⟨some iface, some (pyLower st2), none, true⟩
    else
      { st with needAddress := false }
  | none =>
    if st.needAddress then
      match matchInet line.data with
      | some a => { st with address := some a }
      | none => st
    else st

/-- `get_rndis_interface` as a pure function of the `ip address show` output
(the caller records the `statusQuery` command). -/
def get_rndis_interface (out : Option String) : IfScan :=
  match out with
  | none => ⟨none, none, none, false⟩
  | some o => (pySplitlines o).foldl girStep ⟨none, none, none, false⟩

/-- Python 2 comparison `short_version >= x` where `short_version` may be
`None`: `None` compares below every number. -/
def pyGeF (v : Option Rat) (x : Rat) : Bool :=
  match v with
  | some r => decide (x ≤ r)
  | none => false

/-- The version-dependent tether control code of `check_rndis`. -/
def tetherFunction (shortVersion : Option Rat) (kernel : Option String) : String :=
  if pyGeF shortVersion 6 then
    (if kernel == some "android-samsung" then "41" else "30")
  else if pyGeF shortVersion (51 / 10) then "31"
  else if pyGeF shortVersion 5 then "30"
  else if pyGeF shortVersion (44 / 10) then "34"
  else if pyGeF shortVersion (41 / 10) then "33"
  else if pyGeF shortVersion 4 then "32"
  else "34"

/-- The `for line in out:` loop of `check_rndis` that is meant to bring down
other interfaces. The source iterates over `out` itself — a string — so each
`line` is a single character, exactly as modelled here. -/
def downLoopEvents (interface : String) (out : Option String) : List Event :=
  match out with
  | none => []
  | some o =>
    o.data.flatMap fun c =>
      match matchIface [c] with
      | some (iface, _) =>
        if iface != interface && iface != "lo" && String.mk (iface.data.take 4) != "wlan" then
          [Event.su ("ip link set " ++ iface ++ " down")]
        else []
      | none => []

/-- The static-address configuration command sequence of `check_rndis`. -/
def staticConfigEvents (ra : RndisAddress) (interface : String) : List Event :=
  [Event.su "ip rule add from all lookup main",
   Event.su ("ip link set " ++ interface ++ " down"),
   Event.su ("ip addr flush dev " ++ interface),
   Event.su ("ip addr add " ++ ra.addr ++ " dev " ++ interface),
   Event.su ("ip link set " ++ interface ++ " up"),
   Event.su ("route add -net 0.0.0.0 netmask 0.0.0.0 gw " ++ ra.gateway ++ " dev " ++ interface),
   Event.su ("setprop net." ++ interface ++ ".gw " ++ ra.gateway),
   Event.su ("setprop net." ++ interface ++ ".gateway " ++ ra.gateway),
   Event.su ("setprop net.dns1 " ++ ra.dns1),
   Event.su ("setprop net.dns2 " ++ ra.dns2),
   Event.su ("setprop net." ++ interface ++ ".dns1 " ++ ra.dns1),
   Event.su ("setprop net." ++ interface ++ ".dns2 " ++ ra.dns2),
   Event.su ("ndc resolver setifdns " ++ interface ++ " " ++ ra.dns1 ++ " " ++ ra.dns2),
   Event.su ("ndc resolver setdefaultif " ++ interface),
   Event.su "setprop \"net.gprs.http-proxy\" \"\""]

/-- `check_rndis`: bring up the rndis interface if it is not up.
Mirrors the source: descriptor parse (with error log on a malformed static
descriptor), status query with short-circuit when up + addressed, USB
personality check, tethering, wifi shutdown, the (dead) down loop, then either
static configuration with re-query or a DHCP request. -/
def check_rndis (env : DeviceEnv) (shortVersion : Option Rat) (kernel : Option String)
    (rndis : String) : Bool × List Event :=
  let is_dhcp := rndis == "dhcp"
  let rndis_address := if is_dhcp then none else matchRndisConfig rndis.data
  let evCfg : List Event :=
    if is_dhcp then []
    else match matchRndisConfig rndis.data with
      | some _ => []
      | none => [Event.logError ("Invalid rndis address config: " ++ rndis)]
  let scan1 := get_rndis_interface env.ipShowRndis1
  let ev1 := evCfg ++ [statusQuery]
  if scan1.interface.isSome && scan1.ifState == some "up" && scan1.address.isSome then
    (true, ev1)
  else if is_dhcp || rndis_address.isSome then
    let evUsb :=
      [Event.shell ["getprop", "sys.usb.config"]] ++
      (if pyStrip env.usbConfigOut != "rndis,adb" then
        [Event.su "setprop sys.usb.config rndis,adb", Event.adbCmd ["wait-for-device"]]
      else [])
    let evTether :=
      [Event.su ("service call connectivity " ++ tetherFunction shortVersion kernel ++ " i32 1"),
       Event.adbCmd ["wait-for-device"]]
    let scan2 := get_rndis_interface env.ipShowRndis2
    let ev2 := evUsb ++ evTether ++ [statusQuery]
    match scan2.interface with
    | none => (false, ev1 ++ ev2)
    | some interface =>
      let evWifi := [Event.su "svc wifi disable", Event.su "ip link show"]
      let evDown := downLoopEvents interface env.ipLinkOut
      match rndis_address with
      | some ra =>
        let scan3 := get_rndis_interface env.ipShowRndis3
        let ready3 := scan3.interface.isSome && scan3.ifState == some "up" && scan3.address.isSome
        (ready3, ev1 ++ ev2 ++ evWifi ++ evDown ++ staticConfigEvents ra interface ++ [statusQuery])
      | none =>
        let evDhcp := if is_dhcp then [Event.su ("netcfg " ++ interface ++ " dhcp")] else []
        (false, ev1 ++ ev2 ++ evWifi ++ evDown ++ evDhcp)
  else
    (false, ev1)

/-- `is_tun_interface_available` as a pure function of the listing. -/
def is_tun_interface_available (out : Option String) : Bool :=
  match out with
  | none => false
  | some o => (pySplitlines o).any fun l => matchTun0 l.data

/-- `dismiss_vpn_dialog`. -/
def containsSub (needle : List Char) : List Char → Bool
  | [] => needle.isEmpty
  | c :: rest => needle.isPrefixOf (c :: rest) || containsSub needle rest

def dismiss_vpn_dialog (windows : String) : List Event :=
  [Event.shell ["dumpsys", "window", "windows"]] ++
  (if containsSub "com.android.vpndialogs".data windows.data then
    [Event.shell ["input", "keyevent", "KEYCODE_DPAD_RIGHT"],
     Event.shell ["input", "keyevent", "KEYCODE_ENTER"],
     Event.shell ["input", "keyevent", "KEYCODE_DPAD_RIGHT"],
     Event.shell ["input", "keyevent", "KEYCODE_ENTER"]]
  else [])

/-- The polling loop of `check_simplert`: each iteration dismisses the VPN
dialog if present and re-checks `tun0`; the observation list holds the
iterations that fit before the 30-second wall-clock deadline. -/
def simplertPoll : List PollObs → Bool × List Event
  | [] => (false, [])
  | p :: rest =>
    let evDlg := dismiss_vpn_dialog p.windows
    if is_tun_interface_available p.ipShow then (true, evDlg ++ [statusQuery])
    else
      let r := simplertPoll rest
      (r.1, evDlg ++ [statusQuery] ++ r.2)

/-- `check_simplert`: ready immediately if `tun0` is present, otherwise cycle
the USB personality and poll. -/
def check_simplert (env : DeviceEnv) : Bool × List Event :=
  if is_tun_interface_available env.ipShowTun then (true, [statusQuery])
  else
    let r := simplertPoll env.tunPolls
    (r.1, [statusQuery, Event.su "setprop sys.usb.config adb", Event.adbCmd ["wait-for-device"]] ++ r.2)

/-- `dns not in addresses` guard before `addresses.append(dns)`. -/
def addIfNew (acc : List String) (x : String) : List String :=
  if x ∈ acc then acc else acc ++ [x]

/-- One line of the fallback-address property scan of `is_device_ready`:
`net.dnsN` then `dhcp.*.dnsN` appended if new, `dhcp.*.gateway` remembered. -/
def collectFallbackStep (acc : List String × Option String) (line : String) :
    List String × Option String :=
  let a1 := match matchNetDns line.data with
    | some d => addIfNew acc.1 d
    | none => acc.1
  let a2 := match matchDhcpDns line.data with
    | some d => addIfNew a1 d
    | none => a1
  let g := match matchDhcpGateway line.data with
    | some gw => some gw
    | none => acc.2
  (a2, g)

/-- The fallback candidate list of `is_device_ready`: scanned DNS servers,
with the gateway inserted at the front and `8.8.8.8` appended. -/
def build_fallback_addresses (props : Option String) : List String :=
  let acc := match props with
    | none => (([] : List String), (none : Option String))
    | some o => (pySplitlines o).foldl collectFallbackStep ([], none)
  (match acc.2 with
   | some gw => gw :: acc.1
   | none => acc.1) ++ ["8.8.8.8"]

/-- The `for address in addresses` loop: ping each in order, stop at the first
that responds, returning (success, responding address, issued pings). -/
def probe_addresses (pingFn : String → Option String) : List String →
    Bool × Option String × List Event
  | [] => (false, none, [])
  | a :: rest =>
    if (parse_rtt (pingFn a)).isSome then (true, some a, [pingEvent a])
    else
      let r := probe_addresses pingFn rest
      (r.1, r.2.1, pingEvent a :: r.2.2)

/-- `self.ping(address)`: no command at all when the address is `None`. -/
def ping_cmd (pingFn : String → Option String) (address : Option String) :
    Option String × List Event :=
  match address with
  | none => (none, [])
  | some a => (parse_rtt (pingFn a), [pingEvent a])

/-- The connectivity stage of `is_device_ready` (source lines 459-490): ping
the last known good address; on failure scan properties and probe the
fallback list, recording any responder as the new last known good address. -/
def connectivity_check (env : DeviceEnv) (pingAddress : Option String) :
    Bool × Option String × List Event :=
  let first := ping_cmd env.pingOut pingAddress
  if first.1.isSome then (true, pingAddress, first.2)
  else
    let addrs := build_fallback_addresses env.getpropOut
    let r := probe_addresses env.pingOut addrs
    let newAddr := match r.2.1 with
      | some a => some a
      | none => pingAddress
    (r.1, newAddr, first.2 ++ [Event.shell ["getprop"]] ++ r.2.2)

/-- `cleanup_device`'s known-app pass: probe installed status once per app,
cache it, and force-stop installed apps. -/
def cleanupApps (env : DeviceEnv) : List (String × Option Bool) →
    List (String × Option Bool) × List Event
  | [] => ([], [])
  | (app, cached) :: rest =>
    let probed : Bool × List Event :=
      match cached with
      | some b => (b, [])
      | none =>
        (match env.packageOut app with
         | none => false
         | some o => !(pyStrip o).isEmpty,
         [Event.shell ["dumpsys", "package", app, "|", "grep", "versionName", "|",
                       "head", "-n1"]])
    let evStop := if probed.1 then [Event.shell ["am", "force-stop", app]] else []
    let r := cleanupApps env rest
    ((app, some probed.1) :: r.1, probed.2 ++ evStop ++ r.2)

/-- Search for `Window #[^\n]*<needle>` anywhere in the window dump. -/
def searchAfterWindow (needle : List Char) : List Char → Bool
  | [] => false
  | c :: rest =>
    ("Window #".data.isPrefixOf (c :: rest) &&
      (let seg := ((c :: rest).drop 8).takeWhile fun x => x != '\n'
       containsSub needle seg)) ||
    searchAfterWindow needle rest

/-- `cleanup_device`. -/
def cleanup_device (env : DeviceEnv) (apps : List (String × Option Bool)) :
    List (String × Option Bool) × List Event :=
  let r := cleanupApps env apps
  let dialog := searchAfterWindow "Application Error:".data env.windowsOut.data ||
                searchAfterWindow "systemui.usb.UsbDebuggingActivity".data env.windowsOut.data
  (r.1,
   [Event.su "service call notification 1"] ++ r.2 ++
   [Event.shell ["rm", "-rf", "/sdcard/Download/*", "/sdcard/Backucup", "/sdcard/UCDownloads",
                 "/data/local/tmp/tcpdump.cap", "/data/local/tmp/wpt_video.mp4"],
    Event.su "rm -rf /data/media/0/Download/* /data/media/0/Backucup /data/media/0/UCDownloads",
    Event.shell ["dumpsys", "window", "windows"]] ++
   (if dialog then
      [Event.shell ["input", "keyevent", "KEYCODE_DPAD_RIGHT"],
       Event.shell ["input", "keyevent", "KEYCODE_DPAD_RIGHT"],
       Event.shell ["input", "keyevent", "KEYCODE_ENTER"]]
    else []))

/-- The one-time identity pass of `is_device_ready` (volume, cleanup, version
and kernel fetch), run only while version or kernel are unknown. -/
def identityPass (env : DeviceEnv) (s : AdbState) : AdbState × List Event :=
  let p1 : AdbState × List Event :=
    match s.version with
    | some _ => (s, [])
    | none =>
      let c := cleanup_device env s.knownApps
      let sv : AdbState :=
        match env.versionOut with
        | none => { s with knownApps := c.1 }
        | some o =>
          { s with knownApps := c.1,
                   version := some ("Android " ++ pyStrip o),
                   shortVersion :=
                     match matchShortVersion o.data with
                     | some r => some r
                     | none => s.shortVersion }
      (sv, [Event.shell ["input", "keyevent", "25"]] ++ c.2 ++
           [Event.shell ["getprop", "ro.build.version.release"]])
  let p2 : AdbState × List Event :=
    match p1.1.kernel with
    | some _ => (p1.1, [])
    | none =>
      (match env.clientIdOut with
       | none => p1.1
       | some o => { p1.1 with kernel := some (pyStrip o) },
       [Event.shell ["getprop", "ro.com.google.clientidbase"]])
  (p2.1, p1.2 ++ p2.2)

/-- The bridge stage of `is_device_ready` (source lines 452-458): the rndis
verdict, if any, is overwritten by the simplert verdict, with a reset when
simplert fails. -/
def bridge_stage (env : DeviceEnv) (cfg : AdbConfig) (shortVersion : Option Rat)
    (kernel : Option String) (ready1 : Bool) : Bool × List Event :=
  let r2 : Bool × List Event :=
    match cfg.rndis with
    | some r => check_rndis env shortVersion kernel r
    | none => (ready1, [])
  match cfg.simplert with
  | some _ =>
    let cs := check_simplert env
    if cs.1 then (cs.1, r2.2 ++ cs.2)
    else (cs.1, r2.2 ++ cs.2 ++ [resetSimplertEvent])
  | none => r2

/-- The network stage of `is_device_ready` (source lines 459-495). -/
def net_stage (env : DeviceEnv) (pa : Option String) (cfgSimplert : Option String)
    (ready3 : Bool) : Bool × Option String × List Event :=
  if ready3 then
    let c := connectivity_check env pa
    if c.1 then (true, c.2.1, c.2.2)
    else
      (false, c.2.1,
       c.2.2 ++ (match cfgSimplert with
                 | some _ => [resetSimplertEvent]
                 | none => []))
  else (ready3, pa, [])

structure ReadyResult where
  ready : Bool
  state : AdbState
  events : List Event
deriving DecidableEq

/-- `is_device_ready`. -/
def is_device_ready (env : DeviceEnv) (cfg : AdbConfig) (s : AdbState) : ReadyResult :=
  let idp := identityPass env s
  let s1 := idp.1
  let battery := get_battery_stats env.batteryOut
  let ready1 :=
    (match battery.level with
     | some l => decide (50 ≤ l)
     | none => true) &&
    (match battery.temp with
     | some t => decide (t ≤ 36)
     | none => true)
  let br := bridge_stage env cfg s1.shortVersion s1.kernel ready1
  let net := net_stage env s1.pingAddress cfg.simplert br.1
  let s2 := { s1 with pingAddress := net.2.1 }
  let fin : AdbState × List Event :=
    if net.1 && !s2.initFlag then
      ({ s2 with initFlag := true }, [suppressEvent])
    else (s2, [])
  ⟨net.1, fin.1, idp.2 ++ [Event.shell ["dumpsys", "battery"]] ++ br.2 ++ net.2.2 ++ fin.2⟩

/-- `get_bytes_rx`: sum the received-byte counters of all non-loopback
interfaces and return the delta against the previous total, which becomes the
new baseline. Returns (delta, new baseline). -/
def get_bytes_rx (out : Option String) (lastBytesRx : Int) : Int × Int :=
  let bytes_rx : Int :=
    match out with
    | none => 0
    | some o =>
      (pySplitlines o).foldl
        (fun acc line =>
          match matchDevLine line.data with
          | some (interface, n) => if interface == "lo" then acc else acc + (n : Int)
          | none => acc)
        0
  (bytes_rx - lastBytesRx, bytes_rx)

/-- Repeated `is_device_ready` calls by the external scheduler: one oracle per
call; returns each call's (verdict, trace) and the final state. -/
def run_ready_calls (cfg : AdbConfig) : List DeviceEnv → AdbState →
    List (Bool × List Event) × AdbState
  | [], s => ([], s)
  | env :: rest, s =>
    let r := is_device_ready env cfg s
    let t := run_ready_calls cfg rest r.state
    ((r.ready, r.events) :: t.1, t.2)

/-- Commands actually sent to the device: the trace without log lines. -/
def deviceCommands (es : List Event) : List Event :=
  es.filter fun e =>
    match e with
    | .logError _ => false
    | _ => true

/-- A network probe (`ping`) command. -/
def isPingEvent (e : Event) : Bool :=
  match e with
  | .shell ("ping" :: _) => true
  | _ => false

/-- The DNS values one property line yields, `net.dnsN` before `dhcp.*.dnsN`. -/
def rawDns (l : String) : List String :=
  (matchNetDns l.data).toList ++ (matchDhcpDns l.data).toList

/-- Spec side (§4.2): "each discovered DNS server in encounter order": the raw
DNS values the property scan yields, line by line. -/
def dnsEncounterOrder (lines : List String) : List String :=
  lines.flatMap rawDns

/-- Spec side: deduplication keeping the first occurrence of each value. -/
def encounterDedup : List String → List String
  | [] => []
  | a :: rest => a :: encounterDedup (rest.filter fun b => b != a)
termination_by l => l.length
decreasing_by
  simp only [List.length_cons]
  exact Nat.lt_succ_of_le (List.length_filter_le _ _)

/-- Spec side: the discovered DHCP gateway (the scan keeps the last one). -/
def lastGateway (lines : List String) : Option String :=
  lines.foldl
    (fun g l =>
      match matchDhcpGateway l.data with
      | some gw => some gw
      | none => g)
    none

/-- Spec side (§4.2): "in order: DHCP gateway, then each discovered DNS server
in encounter order (deduplicated), then the fixed fallback 8.8.8.8". -/
def spec_fallback_order (props : Option String) : List String :=
  let lines := match props with
    | none => []
    | some o => pySplitlines o
  (lastGateway lines).toList ++ encounterDedup (dnsEncounterOrder lines) ++ ["8.8.8.8"]

/-- Spec side (§4.4 step 5): how often the one-time suppression command should
appear in each call's trace, given the calls' verdicts: once in the first
successful call, never elsewhere. -/
def first_success_indicator : List Bool → List Nat
  | [] => []
  | b :: rest => if b then 1 :: rest.map (fun _ => 0) else 0 :: first_success_indicator rest

/-- `fails pingFn a`: the probe of `a` got no rtt back. -/
def probeFails (pingFn : String → Option String) (a : String) : Bool :=
  (parse_rtt (pingFn a)).isNone

/-- An event that is neither a ping probe nor the one-time suppression
command. -/
def BenignE (e : Event) : Prop := isPingEvent e = false ∧ e ≠ suppressEvent

/-- A line that the interface pattern parses as an `rndis0` line. -/
def rndisLineOf (l : String) : Bool :=
  match matchIface l.data with
  | some (i, _) => i == "rndis0"
  | none => false

/- Concrete inputs used by witnesses and counterexamples. -/

/-- An interface listing with `usb0` down, then `rndis0` up with an address. -/
def listingC5 : String :=
  "3: usb0: <BROADCAST,MULTICAST> mtu 1500 qdisc pfifo_fast state DOWN qlen 1000\n" ++
  "4: rndis0: <BROADCAST,MULTICAST,UP,LOWER_UP> mtu 1500 qdisc pfifo_fast state UP qlen 1000\n" ++
  "    inet 192.168.1.5/24 brd 192.168.1.255 scope global rndis0"

/-- A listing where an `eth0` line intervenes between `rndis0` and its `inet`
line, so the address must not be attributed. -/
def listingIntervene : String :=
  "4: rndis0: <BROADCAST,MULTICAST,UP,LOWER_UP> mtu 1500 qdisc pfifo_fast state UP qlen 1000\n" ++
  "5: eth0: <BROADCAST,MULTICAST,UP,LOWER_UP> mtu 1500 qdisc pfifo_fast state UP qlen 1000\n" ++
  "    inet 192.168.1.5/24 brd 192.168.1.255 scope global eth0"

def usb0DownListing : String :=
  "3: usb0: <BROADCAST,MULTICAST> mtu 1500 qdisc pfifo_fast state DOWN qlen 1000"

def rndis0UpNoAddrListing : String :=
  "4: rndis0: <BROADCAST,MULTICAST,UP,LOWER_UP> mtu 1500 qdisc pfifo_fast state UP qlen 1000"

def ethLine : String :=
  "4: eth0: <BROADCAST,MULTICAST,UP,LOWER_UP> mtu 1500 qdisc pfifo_fast state UP qlen 1000"

def tunListing : String := "12: tun0: <POINTOPOINT,UP> mtu 1500 state UNKNOWN"

def pingOkOut : String := "rtt min/avg/max/mdev = 12.345/13.0/14.0/0.5 ms"

def emptyEnv : DeviceEnv :=
  { batteryOut := none, versionOut := none, clientIdOut := none, getpropOut := none,
    usbConfigOut := "", ipShowRndis1 := none, ipShowRndis2 := none, ipShowRndis3 := none,
    ipLinkOut := none, ipShowTun := none, tunPolls := [],
    pingOut := fun _ => none, windowsOut := "", packageOut := fun _ => none }

/-- Battery at 30 percent, rndis tether already up and addressed, last known
good address responding. -/
def envC1 : DeviceEnv :=
  { emptyEnv with
    batteryOut := some "  level: 30\n  temperature: 300",
    ipShowRndis1 := some listingC5,
    pingOut := fun a => if a = "192.168.1.1" then some pingOkOut else none }

def sC1 : AdbState :=
  { initialState with version := some "Android 7.0", shortVersion := some 7,
                      kernel := some "google", pingAddress := some "192.168.1.1",
                      initFlag := true }

/-- Battery at 30 percent, nothing else available. -/
def envLowBattery : DeviceEnv :=
  { emptyEnv with batteryOut := some "  level: 30" }

/-- /proc/net/dev totals 1500 bytes (lo excluded), then 200 bytes after a
device counter reset. -/
def devOut1 : String :=
  "Inter-|   Receive\n face |bytes    packets\n    lo: 999 0 0 0\n  eth0: 1000 12 0 0\n wlan0: 500 3 0 0"

def devOut2 : String := "    lo: 999 0 0 0\n  eth0: 200 1 0 0"

/-- Tether interface down at first, `rndis0` appears after tethering, and the
elevated `ip link show` lists an `eth0` that is up. -/
def envC3 : DeviceEnv :=
  { emptyEnv with
    ipShowRndis1 := some usb0DownListing,
    usbConfigOut := "rndis,adb\n",
    ipShowRndis2 := some rndis0UpNoAddrListing,
    ipLinkOut := some ("1: lo: <LOOPBACK,UP,LOWER_UP> mtu 65536 qdisc noqueue state UNKNOWN\n" ++ ethLine) }

/-- Bridge already converged for both strategies. -/
def envC4 : DeviceEnv :=
  { emptyEnv with ipShowRndis1 := some listingC5, ipShowTun := some tunListing }

/-- Property dump with one DNS server and a DHCP gateway; only `1.1.1.1`
responds. -/
def envC6 : DeviceEnv :=
  { emptyEnv with
    getpropOut := some "[net.dns1]: [1.1.1.1]\n[dhcp.eth0.gateway]: [10.0.0.1]",
    pingOut := fun a => if a = "1.1.1.1" then some pingOkOut else none }

/-- Only the fixed fallback responds; device identity already known. -/
def envOkW : DeviceEnv :=
  { emptyEnv with pingOut := fun a => if a = "8.8.8.8" then some pingOkOut else none }

/-- Malformed rndis descriptor scenario: the tether interface is down. -/
def envC9 : DeviceEnv := { emptyEnv with ipShowRndis1 := some usb0DownListing }

def sC9 : AdbState :=
  { initialState with version := some "Android 7.0", shortVersion := some 7,
                      kernel := some "google" }

def c9msg : String := "Invalid rndis address config: 10.0.0"

/-- Tunnel present, rndis tether up, gateway responding — both bridge modes
configured at once. -/
def envC10 : DeviceEnv :=
  { emptyEnv with
    ipShowRndis1 := some listingC5,
    ipShowTun := some tunListing,
    pingOut := fun a => if a = "192.168.1.1" then some pingOkOut else none }

/-! Helper lemmas. -/

/-- The interface-line pattern needs at least a digit, a colon and more: it can
never match a one-character string, which is what each iteration of the
`for line in out:` loop of `check_rndis` feeds it. -/
theorem matchIfaceAt_single (c : Char) : matchIfaceAt [c] = none := by
  unfold matchIfaceAt takeWhile1
  cases h : pyDigit c
  · simp [List.takeWhile, h]
  · simp [List.takeWhile, List.dropWhile, h, expectChar]

theorem matchIface_single (c : Char) : matchIface [c] = none := by
  have h0 : matchIfaceAt [c] = none := matchIfaceAt_single c
  simp [matchIface, h0]

/-- The interface-shutdown loop of `check_rndis` iterates over the characters
of the command output, so it never issues a single command, whatever the
output and whatever the tether interface. -/
theorem downLoopEvents_nil (interface : String) (out : Option String) :
    downLoopEvents interface out = [] := by
  cases out with
  | none => rfl
  | some o =>
    simp only [downLoopEvents]
    have : ∀ l : List Char,
        (l.flatMap fun c =>
          match matchIface [c] with
          | some (iface, _) =>
            if iface != interface && iface != "lo" && String.mk (iface.data.take 4) != "wlan" then
              [Event.su ("ip link set " ++ iface ++ " down")]
            else []
          | none => []) = [] := by
      intro l
      induction l with
      | nil => rfl
      | cons c t ih => simp [List.flatMap_cons, matchIface_single, ih]
    exact this o.data

/-! Claim theorems. -/

/-- C2 (the claim fails on the code): after the device counter resets from a
total of 1500 down to 200 across two consecutive `get_bytes_rx` calls, the
code returns the negative delta -1300 instead of a non-negative one (the first
call, from the initial baseline 0, returned 1500). -/
theorem c2_bytes_rx_negative_on_reset :
    (get_bytes_rx (some devOut1) 0).1 = 1500 ∧
    (get_bytes_rx (some devOut1) 0).2 = 1500 ∧
    (get_bytes_rx (some devOut2) (get_bytes_rx (some devOut1) 0).2).1 = -1300 := by
  refine ⟨?_, ?_, ?_⟩ <;> decide

/-- C3 (the claim fails on the code): `matchIface` parses the `eth0` line of
the elevated `ip link show` output — the interface is listed, up, and is
neither the tether interface, `lo`, nor `wlan*` — yet the shutdown loop can
never emit a command (it iterates over characters, not lines), and in the
concrete convergence run where `rndis0` appeared no `ip link set eth0 down`
command is issued. -/
theorem c3_down_loop_never_issues_commands :
    matchIface ethLine.data = some ("eth0", "UP") ∧
    (∀ (interface : String) (out : Option String), downLoopEvents interface out = []) ∧
    Event.su "ip link set eth0 down" ∉ (check_rndis envC3 none none "dhcp").2 := by
  refine ⟨by decide, downLoopEvents_nil, by decide⟩

/-- C1 counterexample: with battery parsed at 30 percent but an rndis bridge
mode configured and converged and the last known good address responding,
`is_device_ready` returns ready — the battery/thermal verdict is overwritten
by the bridge check rather than short-circuiting the call. -/
theorem c1_low_battery_bridge_overrides :
    (get_battery_stats envC1.batteryOut).level = some 30 ∧
    (is_device_ready envC1 ⟨some "dhcp", none⟩ sC1).ready = true := by
  refine ⟨by decide, by decide⟩

/-- C9 counterexample: with a malformed rndis descriptor, the configuration
error is logged by every readiness check — here each of two consecutive
checks logs it once, for a total of two, not once at startup. -/
theorem c9_error_logged_every_check :
    ((run_ready_calls ⟨some "10.0.0", none⟩ [envC9, envC9] sC9).1.map
      fun r => r.2.count (Event.logError c9msg)) = [1, 1] ∧
    ((run_ready_calls ⟨some "10.0.0", none⟩ [envC9, envC9] sC9).1.flatMap
      fun r => r.2).count (Event.logError c9msg) = 2 := by
  refine ⟨by decide, by decide⟩

/-- Once the scan has committed to `rndis0`, no later line can change the
selected interface. -/
theorem girStep_keeps_rndis0 (st : IfScan) (l : String)
    (h : st.interface = some "rndis0") : (girStep st l).interface = some "rndis0" := by
  obtain ⟨i, t, ad, na⟩ := st
  simp only [IfScan.interface] at h
  subst h
  unfold girStep
  cases hm : matchIface l.data with
  | none =>
    cases na <;> simp only [] <;> first
      | rfl
      | (cases hi : matchInet l.data <;> rfl)
  | some p =>
    obtain ⟨iface, st2⟩ := p
    cases hr : iface == "rndis0" with
    | true =>
      have : iface = "rndis0" := by simpa using hr
      simp [this]
    | false => simp [hr]

/-- A parsed `rndis0` line always (re)selects `rndis0`. -/
theorem girStep_sets_rndis0 (st : IfScan) (l : String)
    (h : rndisLineOf l = true) : (girStep st l).interface = some "rndis0" := by
  unfold rndisLineOf at h
  cases hm : matchIface l.data with
  | none => rw [hm] at h; cases h
  | some p =>
    obtain ⟨iface, st2⟩ := p
    rw [hm] at h
    have hi : iface = "rndis0" := by simpa using h
    unfold girStep
    rw [hm]
    simp [hi]

theorem gir_foldl_keeps (lines : List String) :
    ∀ st : IfScan, st.interface = some "rndis0" →
      (lines.foldl girStep st).interface = some "rndis0" := by
  induction lines with
  | nil => intro st h; exact h
  | cons l ls ih => intro st h; exact ih _ (girStep_keeps_rndis0 st l h)

theorem gir_foldl_rndis0 (lines : List String) :
    ∀ st : IfScan, (∃ l ∈ lines, rndisLineOf l = true) →
      (lines.foldl girStep st).interface = some "rndis0" := by
  induction lines with
  | nil =>
    rintro st ⟨l, hl, _⟩
    cases hl
  | cons l ls ih =>
    rintro st ⟨l2, hl2, hr⟩
    rcases List.mem_cons.mp hl2 with h | hmem
    · subst h
      exact gir_foldl_keeps ls _ (girStep_sets_rndis0 st l2 hr)
    · exact ih _ ⟨l2, hmem, hr⟩

/-- C5: in `get_rndis_interface`, any listing containing an `rndis0` interface
line yields `rndis0`; `usb0` is returned only when no `rndis0` line appears;
and on the concrete listing with `usb0` down followed by `rndis0` up and its
`inet 192.168.1.5`, the scan yields rndis0/up/192.168.1.5, while an
intervening interface line prevents address attribution. -/
theorem c5_rndis0_priority (out : String) :
    ((∃ l ∈ pySplitlines out, rndisLineOf l = true) →
      (get_rndis_interface (some out)).interface = some "rndis0") ∧
    ((get_rndis_interface (some out)).interface = some "usb0" →
      ∀ l ∈ pySplitlines out, rndisLineOf l = false) ∧
    get_rndis_interface (some listingC5) =
      ⟨some "rndis0", some "up", some "192.168.1.5", true⟩ ∧
    (get_rndis_interface (some listingIntervene)).address = none := by
  refine ⟨?_, ?_, by decide, by decide⟩
  · intro h
    exact gir_foldl_rndis0 _ _ h
  · intro husb l hl
    by_contra hcon
    rw [Bool.not_eq_false] at hcon
    have h2 := gir_foldl_rndis0 (pySplitlines out) ⟨none, none, none, false⟩ ⟨l, hl, hcon⟩
    unfold get_rndis_interface at husb
    rw [h2] at husb
    exact absurd (Option.some.inj husb) (by decide)

/-- C5 witness: the concrete listing contains an `rndis0` line, so the scan
selects `rndis0`. -/
theorem c5_rndis0_priority_witness :
    (get_rndis_interface (some listingC5)).interface = some "rndis0" :=
  (c5_rndis0_priority listingC5).1 ⟨rndis0UpNoAddrListing, by decide, by decide⟩

/-- C4: when the first status query already shows the tether interface up with
an address, `check_rndis` reports ready and sends the device nothing but that
query; when `tun0` is already present, `check_simplert` likewise returns ready
with only the status query. -/
theorem c4_bridge_checks_idempotent (env : DeviceEnv) (sv : Option Rat)
    (k : Option String) (r : String) :
    (((get_rndis_interface env.ipShowRndis1).interface.isSome &&
      (get_rndis_interface env.ipShowRndis1).ifState == some "up" &&
      (get_rndis_interface env.ipShowRndis1).address.isSome) = true →
      (check_rndis env sv k r).1 = true ∧
      deviceCommands (check_rndis env sv k r).2 = [statusQuery]) ∧
    (is_tun_interface_available env.ipShowTun = true →
      check_simplert env = (true, [statusQuery])) := by
  constructor
  · intro h
    unfold check_rndis
    simp only [h, if_true]
    cases hd : (r == "dhcp") with
    | true => simp [hd, deviceCommands, statusQuery, List.filter]
    | false =>
      cases hm : matchRndisConfig r.data with
      | none => simp [hd, hm, deviceCommands, statusQuery, List.filter]
      | some ra => simp [hd, hm, deviceCommands, statusQuery, List.filter]
  · intro h
    unfold check_simplert
    simp [h]

/-- C4 witness: a converged rndis bridge and a present tunnel, both checks
idempotent. -/
theorem c4_bridge_checks_idempotent_witness :
    (check_rndis envC4 none none "dhcp").1 = true ∧
    deviceCommands (check_rndis envC4 none none "dhcp").2 = [statusQuery] ∧
    check_simplert envC4 = (true, [statusQuery]) := by
  have h := c4_bridge_checks_idempotent envC4 none none "dhcp"
  exact ⟨(h.1 (by decide)).1, (h.1 (by decide)).2, h.2 (by decide)⟩

/-- C9 (amended): a malformed static descriptor is logged as an error on each
check (not once at startup); with the tether interface not already up,
`check_rndis` returns not-ready and issues no device command beyond the
status query — the total embedding also witnesses that this path raises
nothing. -/
theorem c9_malformed_descriptor_amended (env : DeviceEnv) (sv : Option Rat)
    (k : Option String) (r : String)
    (hdhcp : (r == "dhcp") = false)
    (hmal : matchRndisConfig r.data = none)
    (hdown : ((get_rndis_interface env.ipShowRndis1).interface.isSome &&
      (get_rndis_interface env.ipShowRndis1).ifState == some "up" &&
      (get_rndis_interface env.ipShowRndis1).address.isSome) = false) :
    check_rndis env sv k r =
      (false, [Event.logError ("Invalid rndis address config: " ++ r), statusQuery]) := by
  unfold check_rndis
  simp [hdhcp, hmal, hdown]

/-- C9 witness: the malformed descriptor `10.0.0` with the tether down. -/
theorem c9_malformed_descriptor_amended_witness :
    check_rndis envC9 none none "10.0.0" = (false, [Event.logError c9msg, statusQuery]) :=
  c9_malformed_descriptor_amended envC9 none none "10.0.0" (by decide) (by decide) (by decide)

/-- One scan line updates the address list by folding its raw DNS values
through the append-if-new step, and keeps the last gateway. -/
theorem collect_step_eq (acc : List String × Option String) (l : String) :
    collectFallbackStep acc l =
      ((rawDns l).foldl addIfNew acc.1,
       match matchDhcpGateway l.data with
       | some gw => some gw
       | none => acc.2) := by
  unfold collectFallbackStep rawDns
  cases matchNetDns l.data <;> cases matchDhcpDns l.data <;>
    cases matchDhcpGateway l.data <;> simp

theorem fold_collect (lines : List String) :
    ∀ (as : List String) (g : Option String),
      lines.foldl collectFallbackStep (as, g) =
        ((lines.flatMap rawDns).foldl addIfNew as,
         lines.foldl
           (fun g2 l =>
             match matchDhcpGateway l.data with
             | some gw => some gw
             | none => g2) g) := by
  induction lines with
  | nil => intro as g; rfl
  | cons l ls ih =>
    intro as g
    simp only [List.foldl_cons, List.flatMap_cons, List.foldl_append]
    rw [collect_step_eq]
    exact ih _ _

theorem filter_filter_mem (x : String) (acc : List String) (rest : List String) :
    rest.filter (fun y => decide (y ∉ acc ++ [x])) =
      (rest.filter fun y => decide (y ∉ acc)).filter (fun b => b != x) := by
  induction rest with
  | nil => rfl
  | cons y ys ih =>
    by_cases h1 : y ∈ acc
    · have e1 : decide (y ∉ acc) = false := by simp [h1]
      have e2 : decide (y ∉ acc ++ [x]) = false := by simp [List.mem_append, h1]
      simp only [List.filter_cons, e1, e2, if_neg, Bool.false_eq_true, ite_false, ih]
    · by_cases h2 : y = x
      · subst h2
        have e1 : decide (y ∉ acc) = true := by simp [h1]
        have e2 : decide (y ∉ acc ++ [y]) = false := by simp [List.mem_append]
        have e3 : (y != y) = false := by simp
        simp only [List.filter_cons, e1, e2, e3, Bool.false_eq_true, ite_false, ite_true, ih]
      · have e1 : decide (y ∉ acc) = true := by simp [h1]
        have e2 : decide (y ∉ acc ++ [x]) = true := by simp [List.mem_append, h1, h2]
        have e3 : (y != x) = true := by simpa using h2
        simp only [List.filter_cons, e1, e2, e3, ite_true, ih]

/-- The source's fold of append-if-new steps is first-occurrence
deduplication of the values not already present. -/
theorem addIfNew_fold_dedup (raw : List String) :
    ∀ acc : List String,
      raw.foldl addIfNew acc = acc ++ encounterDedup (raw.filter fun x => decide (x ∉ acc)) := by
  induction raw with
  | nil => intro acc; simp [encounterDedup]
  | cons x rest ih =>
    intro acc
    by_cases hx : x ∈ acc
    · have e1 : decide (x ∉ acc) = false := by simp [hx]
      have e2 : addIfNew acc x = acc := by simp [addIfNew, hx]
      simp only [List.foldl_cons, e2, List.filter_cons, e1, Bool.false_eq_true, ite_false]
      exact ih acc
    · have e1 : decide (x ∉ acc) = true := by simp [hx]
      have e2 : addIfNew acc x = acc ++ [x] := by simp [addIfNew, hx]
      simp only [List.foldl_cons, e2, List.filter_cons, e1, ite_true]
      rw [ih (acc ++ [x])]
      simp only [encounterDedup]
      rw [filter_filter_mem]
      simp

/-- The fallback list the source builds is exactly the spec's order: gateway,
then DNS servers in encounter order deduplicated, then `8.8.8.8`. -/
theorem build_eq_spec (props : Option String) :
    build_fallback_addresses props = spec_fallback_order props := by
  cases props with
  | none =>
    simp [build_fallback_addresses, spec_fallback_order, dnsEncounterOrder, lastGateway,
          encounterDedup]
  | some o =>
    unfold build_fallback_addresses spec_fallback_order
    simp only []
    rw [fold_collect]
    rw [addIfNew_fold_dedup]
    have hfil : (((pySplitlines o).flatMap rawDns).filter
        fun x => decide (x ∉ ([] : List String))) = (pySplitlines o).flatMap rawDns := by
      apply List.filter_eq_self.mpr
      intro a _
      simp
    rw [hfil]
    unfold dnsEncounterOrder lastGateway
    cases hgw : (pySplitlines o).foldl
        (fun g2 l =>
          match matchDhcpGateway l.data with
          | some gw => some gw
          | none => g2) none with
    | none => simp [hgw]
    | some gw => simp [hgw]

/-- The probe loop pings the failing addresses in list order, then the first
responder if any, and returns that responder. -/
theorem probe_addresses_spec (pingFn : String → Option String) (addrs : List String) :
    probe_addresses pingFn addrs =
      (!(addrs.dropWhile (probeFails pingFn)).isEmpty,
       (addrs.dropWhile (probeFails pingFn)).head?,
       ((addrs.takeWhile (probeFails pingFn)) ++
         (addrs.dropWhile (probeFails pingFn)).take 1).map pingEvent) := by
  induction addrs with
  | nil => rfl
  | cons a rest ih =>
    cases hp : parse_rtt (pingFn a) with
    | some v =>
      have hf : probeFails pingFn a = false := by simp [probeFails, hp]
      simp [probe_addresses, hp, List.dropWhile_cons, List.takeWhile_cons, hf]
    | none =>
      have hf : probeFails pingFn a = true := by simp [probeFails, hp]
      simp [probe_addresses, hp, List.dropWhile_cons, List.takeWhile_cons, hf, ih]

theorem dropWhile_head_not {α : Type} (p : α → Bool) (l : List α) (a : α)
    (h : (l.dropWhile p).head? = some a) : p a = false := by
  induction l with
  | nil => cases h
  | cons x xs ih =>
    cases hp : p x
    · rw [List.dropWhile_cons, hp] at h
      simp only [Bool.false_eq_true, ite_false, List.head?_cons] at h
      rw [← Option.some.inj h]
      exact hp
    · rw [List.dropWhile_cons, hp] at h
      simp only [ite_true] at h
      exact ih h

/-- C6: the fallback candidate list equals the spec order (gateway, DNS
servers in encounter order deduplicated, fixed `8.8.8.8`); the probe loop
pings along that list in order and stops at the first responder; concretely,
with `net.dns1=1.1.1.1` and `dhcp.eth0.gateway=10.0.0.1` the order is
10.0.0.1, 1.1.1.1, 8.8.8.8 and the connectivity stage, after the stale
last-known-good address fails, probes exactly 10.0.0.1 then 1.1.1.1 and stops
there. -/
theorem c6_fallback_probe_order :
    (∀ props : Option String, build_fallback_addresses props = spec_fallback_order props) ∧
    (∀ (pingFn : String → Option String) (addrs : List String),
      probe_addresses pingFn addrs =
        (!(addrs.dropWhile (probeFails pingFn)).isEmpty,
         (addrs.dropWhile (probeFails pingFn)).head?,
         ((addrs.takeWhile (probeFails pingFn)) ++
           (addrs.dropWhile (probeFails pingFn)).take 1).map pingEvent)) ∧
    build_fallback_addresses envC6.getpropOut = ["10.0.0.1", "1.1.1.1", "8.8.8.8"] ∧
    connectivity_check envC6 (some "192.168.0.9") =
      (true, some "1.1.1.1",
       [pingEvent "192.168.0.9", Event.shell ["getprop"],
        pingEvent "10.0.0.1", pingEvent "1.1.1.1"]) := by
  exact ⟨build_eq_spec, probe_addresses_spec, by decide, by decide⟩

/-- The identity pass never touches the stored ping address. -/
theorem identityPass_pingAddress (env : DeviceEnv) (s : AdbState) :
    (identityPass env s).1.pingAddress = s.pingAddress := by
  obtain ⟨pa, ver, sv0, ker, lb, fl, ka⟩ := s
  unfold identityPass
  cases ver <;> cases env.versionOut <;> cases ker <;> cases env.clientIdOut <;> rfl

/-- The identity pass never touches the initialized flag. -/
theorem identityPass_initFlag (env : DeviceEnv) (s : AdbState) :
    (identityPass env s).1.initFlag = s.initFlag := by
  obtain ⟨pa, ver, sv0, ker, lb, fl, ka⟩ := s
  unfold identityPass
  cases ver <;> cases env.versionOut <;> cases ker <;> cases env.clientIdOut <;> rfl

/-- The connectivity stage returns the old ping address unchanged, or an
address whose probe during this check got an rtt back. -/
theorem connectivity_pingAddress (env : DeviceEnv) (pa : Option String) :
    (connectivity_check env pa).2.1 = pa ∨
    ∃ a, (connectivity_check env pa).2.1 = some a ∧
         (parse_rtt (env.pingOut a)).isSome = true := by
  unfold connectivity_check
  cases hf : (ping_cmd env.pingOut pa).1.isSome with
  | true => left; simp [hf]
  | false =>
    simp only [hf, Bool.false_eq_true, if_false]
    cases hsel : (probe_addresses env.pingOut (build_fallback_addresses env.getpropOut)).2.1 with
    | none => left; simp [hsel]
    | some a =>
      right
      refine ⟨a, by simp [hsel], ?_⟩
      have hchar := probe_addresses_spec env.pingOut (build_fallback_addresses env.getpropOut)
      rw [hchar] at hsel
      have hp := dropWhile_head_not (probeFails env.pingOut) _ a hsel
      cases hopt : parse_rtt (env.pingOut a) with
      | none => rw [probeFails, hopt] at hp; cases hp
      | some v => simp [hopt]

/-- C8: each readiness check either leaves the last-known-good ping address
unchanged or replaces it by an address whose ping during that check
succeeded; an unsuccessful pass leaves it unchanged. -/
theorem c8_ping_address_persistence (env : DeviceEnv) (cfg : AdbConfig) (s : AdbState) :
    (is_device_ready env cfg s).state.pingAddress = s.pingAddress ∨
    ∃ a, (is_device_ready env cfg s).state.pingAddress = some a ∧
         (parse_rtt (env.pingOut a)).isSome = true := by
  have hconn := connectivity_pingAddress env s.pingAddress
  simp only [is_device_ready, net_stage]
  rw [identityPass_pingAddress env s]
  split
  · split
    · split
      · exact hconn
      · exact hconn
    · split
      · exact hconn
      · exact hconn
  · split
    · left; rfl
    · left; rfl

/-- With both bridge descriptors configured, the readiness verdict is the
simplert verdict conjoined with connectivity; the rndis result and the
battery gate never reach it. -/
theorem simplert_ready_formula (env : DeviceEnv) (s : AdbState) (r t : String) :
    (is_device_ready env ⟨some r, some t⟩ s).ready =
      ((check_simplert env).1 && (connectivity_check env s.pingAddress).1) := by
  simp only [is_device_ready, bridge_stage, net_stage]
  rw [identityPass_pingAddress env s]
  cases hcs : (check_simplert env).1 <;>
    cases hcc : (connectivity_check env s.pingAddress).1 <;>
      simp [hcs, hcc]

/-- C10: with both an rndis descriptor and a simplert descriptor configured,
the readiness verdict is determined by the simplert check (together with the
subsequent connectivity probe) alone — the rndis result and the battery gate
are overwritten, and in particular changing the battery reading never changes
the verdict. -/
theorem c10_simplert_verdict_wins (env : DeviceEnv) (s : AdbState) (r t : String) :
    ((is_device_ready env ⟨some r, some t⟩ s).ready = true ↔
      ((check_simplert env).1 = true ∧
       (connectivity_check env s.pingAddress).1 = true)) ∧
    ∀ b : Option String,
      (is_device_ready { env with batteryOut := b } ⟨some r, some t⟩ s).ready =
        (is_device_ready env ⟨some r, some t⟩ s).ready := by
  constructor
  · rw [simplert_ready_formula]
    exact iff_of_eq (Bool.and_eq_true _ _)
  · intro b
    rw [simplert_ready_formula, simplert_ready_formula]
    rfl

/-- C10 witness: concrete instance of the verdict formula with both bridges
configured. -/
theorem c10_simplert_verdict_wins_witness :
    (is_device_ready envC10 ⟨some "dhcp", some "tun0,8.8.8.8"⟩ sC1).ready = true ↔
      ((check_simplert envC10).1 = true ∧
       (connectivity_check envC10 sC1.pingAddress).1 = true) :=
  (c10_simplert_verdict_wins envC10 sC1 "dhcp" "tun0,8.8.8.8").1

/-! Event classification: which traces can contain a ping probe or the
one-time alert-suppression command. -/

theorem shell_ne_suppress (args : List String) : Event.shell args ≠ suppressEvent := by
  intro h
  exact Event.noConfusion h

theorem adb_ne_suppress (args : List String) : Event.adbCmd args ≠ suppressEvent := by
  intro h
  exact Event.noConfusion h

theorem log_ne_suppress (m : String) : Event.logError m ≠ suppressEvent := by
  intro h
  exact Event.noConfusion h

/-- An elevated command whose first character is not `p` is not the
suppression command. -/
theorem ne_suppress_of_head (c : Char) (s2 : String) (hh : s2.data.head? = some c)
    (hc : c ≠ 'p') : Event.su s2 ≠ suppressEvent := by
  intro he
  have he2 : Event.su s2 = Event.su suppressCmd := he
  injection he2 with h1
  rw [h1] at hh
  have h2 : suppressCmd.data.head? = some 'p' := rfl
  rw [h2] at hh
  exact hc (Option.some.inj hh).symm

theorem mem_append_pred {P : Event → Prop} {A B : List Event} (hA : ∀ e ∈ A, P e)
    (hB : ∀ e ∈ B, P e) : ∀ e ∈ A ++ B, P e := by
  intro e he
  rcases List.mem_append.mp he with h | h
  · exact hA e h
  · exact hB e h

theorem mem_nil_pred {P : Event → Prop} : ∀ e ∈ ([] : List Event), P e := by
  intro e he
  cases he

theorem mem_cons_pred {P : Event → Prop} {a : Event} {A : List Event} (h : P a)
    (hA : ∀ e ∈ A, P e) : ∀ e ∈ a :: A, P e := by
  intro e he
  rcases List.mem_cons.mp he with h2 | hm
  · rw [h2]; exact h
  · exact hA e hm

theorem benign_append {A B : List Event} (hA : ∀ e ∈ A, BenignE e)
    (hB : ∀ e ∈ B, BenignE e) : ∀ e ∈ A ++ B, BenignE e := mem_append_pred hA hB

theorem benign_nil : ∀ e ∈ ([] : List Event), BenignE e := mem_nil_pred

theorem benign_cons {a : Event} {A : List Event} (h : BenignE a)
    (hA : ∀ e ∈ A, BenignE e) : ∀ e ∈ a :: A, BenignE e := mem_cons_pred h hA

theorem benign_single {a : Event} (h : BenignE a) : ∀ e ∈ [a], BenignE e :=
  benign_cons h benign_nil

theorem benign_staticConfig (ra : RndisAddress) (i : String) :
    ∀ e ∈ staticConfigEvents ra i, BenignE e := by
  unfold staticConfigEvents
  refine benign_cons ⟨rfl, by decide⟩ ?_
  refine benign_cons ⟨rfl, ne_suppress_of_head 'i' _ rfl (by decide)⟩ ?_
  refine benign_cons ⟨rfl, ne_suppress_of_head 'i' _ rfl (by decide)⟩ ?_
  refine benign_cons ⟨rfl, ne_suppress_of_head 'i' _ rfl (by decide)⟩ ?_
  refine benign_cons ⟨rfl, ne_suppress_of_head 'i' _ rfl (by decide)⟩ ?_
  refine benign_cons ⟨rfl, ne_suppress_of_head 'r' _ rfl (by decide)⟩ ?_
  refine benign_cons ⟨rfl, ne_suppress_of_head 's' _ rfl (by decide)⟩ ?_
  refine benign_cons ⟨rfl, ne_suppress_of_head 's' _ rfl (by decide)⟩ ?_
  refine benign_cons ⟨rfl, ne_suppress_of_head 's' _ rfl (by decide)⟩ ?_
  refine benign_cons ⟨rfl, ne_suppress_of_head 's' _ rfl (by decide)⟩ ?_
  refine benign_cons ⟨rfl, ne_suppress_of_head 's' _ rfl (by decide)⟩ ?_
  refine benign_cons ⟨rfl, ne_suppress_of_head 's' _ rfl (by decide)⟩ ?_
  refine benign_cons ⟨rfl, ne_suppress_of_head 'n' _ rfl (by decide)⟩ ?_
  refine benign_cons ⟨rfl, ne_suppress_of_head 'n' _ rfl (by decide)⟩ ?_
  exact benign_single ⟨rfl, by decide⟩

theorem benign_check_rndis (env : DeviceEnv) (sv : Option Rat) (k : Option String)
    (r : String) :
    ∀ e ∈ (check_rndis env sv k r).2, BenignE e := by
  simp only [check_rndis, downLoopEvents_nil]
  repeat' split
  all_goals
    repeat' first
      | exact benign_nil
      | exact benign_staticConfig _ _
      | refine benign_append ?_ ?_
      | refine benign_cons ?_ ?_
  all_goals
    first
      | exact ⟨rfl, by decide⟩
      | exact ⟨rfl, log_ne_suppress _⟩
      | exact ⟨rfl, shell_ne_suppress _⟩
      | exact ⟨rfl, adb_ne_suppress _⟩
      | exact ⟨rfl, ne_suppress_of_head 's' _ rfl (by decide)⟩
      | exact ⟨rfl, ne_suppress_of_head 'n' _ rfl (by decide)⟩

theorem benign_dismiss (w : String) : ∀ e ∈ dismiss_vpn_dialog w, BenignE e := by
  unfold dismiss_vpn_dialog
  repeat' split
  all_goals
    repeat' first
      | exact benign_nil
      | refine benign_append ?_ ?_
      | refine benign_cons ?_ ?_
  all_goals exact ⟨rfl, shell_ne_suppress _⟩

theorem benign_simplertPoll (polls : List PollObs) :
    ∀ e ∈ (simplertPoll polls).2, BenignE e := by
  induction polls with
  | nil => exact benign_nil
  | cons p rest ih =>
    simp only [simplertPoll]
    split
    · exact benign_append (benign_dismiss _) (benign_single ⟨rfl, by decide⟩)
    · exact benign_append (benign_append (benign_dismiss _)
        (benign_single ⟨rfl, by decide⟩)) ih

theorem benign_check_simplert (env : DeviceEnv) :
    ∀ e ∈ (check_simplert env).2, BenignE e := by
  unfold check_simplert
  split
  · exact benign_single ⟨rfl, by decide⟩
  · exact benign_append
      (benign_cons ⟨rfl, by decide⟩
        (benign_cons ⟨rfl, ne_suppress_of_head 's' _ rfl (by decide)⟩
          (benign_single ⟨rfl, adb_ne_suppress _⟩)))
      (benign_simplertPoll _)

theorem benign_cleanupApps (env : DeviceEnv) (apps : List (String × Option Bool)) :
    ∀ e ∈ (cleanupApps env apps).2, BenignE e := by
  induction apps with
  | nil => exact benign_nil
  | cons p rest ih =>
    obtain ⟨app, cached⟩ := p
    simp only [cleanupApps]
    repeat' first
      | exact benign_nil
      | exact ih
      | refine benign_append ?_ ?_
      | refine benign_cons ?_ ?_
      | split
    all_goals exact ⟨rfl, shell_ne_suppress _⟩

theorem benign_cleanup (env : DeviceEnv) (apps : List (String × Option Bool)) :
    ∀ e ∈ (cleanup_device env apps).2, BenignE e := by
  simp only [cleanup_device]
  repeat' first
    | exact benign_nil
    | exact benign_cleanupApps env apps
    | refine benign_append ?_ ?_
    | refine benign_cons ?_ ?_
    | split
  all_goals exact ⟨rfl, by decide⟩

theorem benign_identityPass (env : DeviceEnv) (s : AdbState) :
    ∀ e ∈ (identityPass env s).2, BenignE e := by
  obtain ⟨pa, ver, sv0, ker, lb, fl, ka⟩ := s
  unfold identityPass
  cases ver <;> cases env.versionOut <;> cases ker <;> cases env.clientIdOut <;>
    (repeat' first
      | exact benign_nil
      | exact benign_cleanup env ka
      | refine benign_append ?_ ?_
      | refine benign_cons ?_ ?_) <;>
    exact ⟨rfl, shell_ne_suppress _⟩

theorem nosuppress_probe (f : String → Option String) (addrs : List String) :
    ∀ e ∈ (probe_addresses f addrs).2.2, e ≠ suppressEvent := by
  induction addrs with
  | nil => exact mem_nil_pred
  | cons a rest ih =>
    simp only [probe_addresses]
    split
    · exact mem_cons_pred (shell_ne_suppress _) mem_nil_pred
    · exact mem_cons_pred (shell_ne_suppress _) ih

theorem nosuppress_connectivity (env : DeviceEnv) (pa : Option String) :
    ∀ e ∈ (connectivity_check env pa).2.2, e ≠ suppressEvent := by
  simp only [connectivity_check, ping_cmd]
  repeat' first
    | exact mem_nil_pred
    | exact nosuppress_probe env.pingOut _
    | refine mem_append_pred ?_ ?_
    | refine mem_cons_pred ?_ ?_
    | split
  all_goals exact shell_ne_suppress _

theorem nosuppress_net_stage (env : DeviceEnv) (pa : Option String)
    (cs : Option String) (b : Bool) :
    ∀ e ∈ (net_stage env pa cs b).2.2, e ≠ suppressEvent := by
  simp only [net_stage]
  repeat' first
    | exact mem_nil_pred
    | exact nosuppress_connectivity env pa
    | refine mem_append_pred ?_ ?_
    | refine mem_cons_pred ?_ ?_
    | split
  all_goals exact shell_ne_suppress _

theorem nosuppress_bridge (env : DeviceEnv) (cfg : AdbConfig) (sv : Option Rat)
    (k : Option String) (b : Bool) :
    ∀ e ∈ (bridge_stage env cfg sv k b).2, e ≠ suppressEvent := by
  simp only [bridge_stage]
  repeat' first
    | exact mem_nil_pred
    | exact fun e he => (benign_check_rndis env sv k _ e he).2
    | exact fun e he => (benign_check_simplert env e he).2
    | refine mem_append_pred ?_ ?_
    | refine mem_cons_pred ?_ ?_
    | split
  all_goals exact shell_ne_suppress _

/-- Every branch of `check_rndis` begins by querying the interface status. -/
theorem statusQuery_mem_check_rndis (env : DeviceEnv) (sv : Option Rat)
    (k : Option String) (r : String) :
    statusQuery ∈ (check_rndis env sv k r).2 := by
  simp only [check_rndis, downLoopEvents_nil]
  repeat' split
  all_goals
    repeat' first
      | exact List.mem_append.mpr (Or.inr (List.mem_singleton.mpr rfl))
      | (apply List.mem_append.mpr; left)

/-- C1 (amended): with no bridge mode configured, a readiness check that
parses a battery level below 50 percent returns not-ready and issues no
network-probe command at all; but with an rndis bridge configured the
convergence routine still runs (its status query is issued) even under the
same low battery — the battery verdict does not short-circuit it. -/
theorem c1_battery_gate_amended (env : DeviceEnv) (s : AdbState) (l : Nat)
    (hl : (get_battery_stats env.batteryOut).level = some l) (hlt : l < 50) :
    (is_device_ready env ⟨none, none⟩ s).ready = false ∧
    (is_device_ready env ⟨none, none⟩ s).events.filter isPingEvent = [] ∧
    ∀ r : String, statusQuery ∈ (is_device_ready env ⟨some r, none⟩ s).events := by
  have hr1 : ((match (get_battery_stats env.batteryOut).level with
      | some l2 => decide (50 ≤ l2)
      | none => true) : Bool) = false := by
    rw [hl]
    exact decide_eq_false (by omega)
  have hfilid : (identityPass env s).2.filter isPingEvent = [] := by
    rw [List.filter_eq_nil_iff]
    intro e he
    simp [(benign_identityPass env s e he).1]
  refine ⟨?_, ?_, ?_⟩
  · simp only [is_device_ready, bridge_stage, net_stage]
    rw [hr1]
    simp
  · simp only [is_device_ready, bridge_stage, net_stage]
    rw [hr1]
    simp [List.filter_append, hfilid, isPingEvent]
  · intro r
    simp only [is_device_ready, bridge_stage]
    refine List.mem_append.mpr (Or.inl (List.mem_append.mpr (Or.inl
      (List.mem_append.mpr (Or.inr ?_)))))
    exact statusQuery_mem_check_rndis env _ _ r

/-- C1 witness: concrete low-battery check with no bridge, and the same
battery with an rndis bridge configured. -/
theorem c1_battery_gate_amended_witness :
    (is_device_ready envLowBattery ⟨none, none⟩ initialState).ready = false ∧
    (is_device_ready envLowBattery ⟨none, none⟩ initialState).events.filter isPingEvent = [] ∧
    statusQuery ∈ (is_device_ready envLowBattery ⟨some "dhcp", none⟩ initialState).events := by
  have h := c1_battery_gate_amended envLowBattery initialState 30 (by decide) (by decide)
  exact ⟨h.1, h.2.1, h.2.2 "dhcp"⟩

/-- Counts over a readiness trace reduce to the final one-time block: no other
stage can emit the suppression command. -/
theorem count_append5 (A B C D E : List Event) (hA : suppressEvent ∉ A)
    (hB : suppressEvent ∉ B) (hC : suppressEvent ∉ C) (hD : suppressEvent ∉ D) :
    (A ++ B ++ C ++ D ++ E).count suppressEvent = E.count suppressEvent := by
  simp [List.count_append, List.count_eq_zero.mpr hA, List.count_eq_zero.mpr hB,
        List.count_eq_zero.mpr hC, List.count_eq_zero.mpr hD]

/-- One `is_device_ready` call emits the suppression command exactly when it
returns ready with the flag still unset, and the flag afterwards records
whether this or an earlier call was ready. -/
theorem suppress_count_call (env : DeviceEnv) (cfg : AdbConfig) (s : AdbState) :
    ((is_device_ready env cfg s).events.count suppressEvent =
      if ((is_device_ready env cfg s).ready && !s.initFlag) = true then 1 else 0) ∧
    (is_device_ready env cfg s).state.initFlag =
      (s.initFlag || (is_device_ready env cfg s).ready) := by
  have hIdInit := identityPass_initFlag env s
  refine ⟨?_, ?_⟩
  · simp only [is_device_ready]
    rw [hIdInit]
    rw [count_append5 _ _ _ _ _
      (fun hm => (benign_identityPass env s _ hm).2 rfl)
      (by decide)
      (fun hm => nosuppress_bridge env cfg _ _ _ _ hm rfl)
      (fun hm => nosuppress_net_stage env _ _ _ _ hm rfl)]
    split <;> simp
  · simp only [is_device_ready]
    rw [hIdInit]
    split
    next h =>
      rw [Bool.and_eq_true] at h
      obtain ⟨h1, h2⟩ := h
      have h2' : s.initFlag = false := by simpa using h2
      simp [h1, h2']
    next h =>
      rw [Bool.not_eq_true] at h
      cases hs : s.initFlag
      · rw [hs] at h
        simp only [Bool.not_false, Bool.and_true] at h
        simp [hs, h]
      · simp [hs]

/-- Once the flag is set, no later call ever emits the suppression command
again. -/
theorem suppress_zero_initialized (cfg : AdbConfig) (envs : List DeviceEnv) :
    ∀ s : AdbState, s.initFlag = true →
      ((run_ready_calls cfg envs s).1.map fun r => r.2.count suppressEvent) =
        (run_ready_calls cfg envs s).1.map (fun _ => 0) := by
  induction envs with
  | nil => intro s h; rfl
  | cons env rest ih =>
    intro s h
    have hc := (suppress_count_call env cfg s).1
    have hflag := (suppress_count_call env cfg s).2
    have hflag2 : (is_device_ready env cfg s).state.initFlag = true := by
      rw [hflag, h]
      simp
    simp only [run_ready_calls, List.map_cons]
    rw [hc, ih _ hflag2]
    simp [h]

/-- C7: starting from an uninitialized state, across any sequence of
readiness checks the suppression command appears exactly once in the trace of
the first successful call, and in no other trace (and never if no call
succeeds). -/
theorem c7_alert_suppression_once (cfg : AdbConfig) (envs : List DeviceEnv) :
    ∀ s : AdbState, s.initFlag = false →
      ((run_ready_calls cfg envs s).1.map fun r => r.2.count suppressEvent) =
        first_success_indicator ((run_ready_calls cfg envs s).1.map fun r => r.1) := by
  induction envs with
  | nil => intro s h; rfl
  | cons env rest ih =>
    intro s h
    have hc := (suppress_count_call env cfg s).1
    have hflag := (suppress_count_call env cfg s).2
    simp only [run_ready_calls, List.map_cons, first_success_indicator]
    cases hr : (is_device_ready env cfg s).ready with
    | true =>
      have hflag2 : (is_device_ready env cfg s).state.initFlag = true := by
        rw [hflag, h, hr]
        rfl
      rw [hc, hr, h]
      rw [suppress_zero_initialized cfg rest _ hflag2]
      simp [List.map_map, Function.comp_def]
    | false =>
      have hflag2 : (is_device_ready env cfg s).state.initFlag = false := by
        rw [hflag, h, hr]
        rfl
      rw [hc, hr, ih _ hflag2]
      simp

/-- C7 witness: a failing call followed by two succeeding calls from the
initial state. -/
theorem c7_alert_suppression_once_witness :
    initialState.initFlag = false ∧
    ((run_ready_calls ⟨none, none⟩ [envLowBattery, envOkW, envOkW] initialState).1.map
      fun r => r.2.count suppressEvent) =
      first_success_indicator
        ((run_ready_calls ⟨none, none⟩ [envLowBattery, envOkW, envOkW] initialState).1.map
          fun r => r.1) :=
  ⟨rfl, c7_alert_suppression_once ⟨none, none⟩ [envLowBattery, envOkW, envOkW]
    initialState rfl⟩

end AdbSpec
